import Mathlib

/-!
Verification of the conversational form engine in `bot.py` (a Telegram
real-estate lead bot built on aiogram 2 with a Google-Sheets backing store).

The bot is embedded shallowly: each message handler of `bot.py` becomes a pure
Lean function from the incoming message plus the per-user session to the new
session and a trace of outbound effects, and the aiogram dispatcher becomes a
`handle` function that tries the handlers in their registration order, exactly
as aiogram 2 dispatches (a handler without a `state=` filter matches only the
default state, `state="*"` matches every state, and `message_handler`s accept
only text content unless registered with `ContentTypes.ANY`).

External calls that can fail at runtime (`message.answer`, `bot.send_photo`,
`bot.send_message` to the admin, `append_row` on the spreadsheet) are modelled
by failure-injection flags in `Env`; an effect records whether the call
succeeded.  A failure of an un-guarded `await message.answer(...)` raises out
of the handler, so the model stops the handler at that point (later lines do
not run), matching Python exception propagation; the guarded calls
(`try/except` in the source) swallow their failure and continue.
-/

namespace Bot

/-- The aiogram FSM states of `bot.py`: the default state (Python `None`),
the five `LeadForm` states and the single `QuestionForm.text` state. -/
inductive BotState where
  | none
  | district
  | rooms
  | deadline
  | purchase
  | budget
  | question
deriving DecidableEq

/-- The FSM storage data of one user (`state.get_data()` /
`state.update_data(...)`): one optional free-text answer per lead-form field.
A missing key of the Python dict is `Option.none`. -/
structure FormData where
  district : Option String := Option.none
  rooms : Option String := Option.none
  deadline : Option String := Option.none
  purchase : Option String := Option.none
  budget : Option String := Option.none
deriving DecidableEq

/-- The session of one user: current FSM state plus stored data
(`MemoryStorage` keeps both, `state.finish()` clears both). -/
structure Session where
  state : BotState
  data : FormData
deriving DecidableEq

/-- The cleared session: default state, empty data. -/
def clearedSession : Session := { state := BotState.none, data := {} }

/-- The fields of `aiogram.types.User` that `bot.py` reads. -/
structure TgUser where
  id : Int
  username : Option String
  first_name : Option String
  last_name : Option String
deriving DecidableEq

/-- Environment configuration read at startup (`os.getenv`).  `ADMIN_ID`
defaults to `0` ("unset"); the checklist links default to `""`. -/
structure Config where
  ADMIN_ID : Int
  WELCOME_IMAGE_URL : String
  CHECKLIST_PRIMARY : String
  CHECKLIST_SECONDARY : String
  CHECKLIST_THIRD : String
deriving DecidableEq

/-- Failure injection for the outbound calls, plus the text of the exception
raised by a failing spreadsheet append (the Python exception text). -/
structure Env where
  replyFails : Bool
  photoFails : Bool
  adminSendFails : Bool
  appendFails : Bool
  noticeFails : Bool
  appendErr : String
deriving DecidableEq

/-- The all-successful environment. -/
def envOk : Env :=
  { replyFails := false, photoFails := false, adminSendFails := false,
    appendFails := false, noticeFails := false, appendErr := "" }

/-- Distinguishes the four `bot.send_message(ADMIN_ID, ...)` call sites. -/
inductive AdminKind where
  | leadSummary
  | leadError
  | questionSummary
  | questionError
deriving DecidableEq

/-- A row appended to the `leads` worksheet by `append_lead`. -/
structure LeadRecord where
  timestamp : String
  user_id : Int
  username : String
  full_name : String
  district : String
  rooms : String
  deadline : String
  purchase : String
  budget : String
deriving DecidableEq

/-- A row appended to the `questions` worksheet by `append_question`. -/
structure QuestionRecord where
  timestamp : String
  user_id : Int
  username : String
  full_name : String
  question : String
deriving DecidableEq

/-- An outbound side effect of one handler invocation.  `delivered` is false
when the injected failure made the underlying call raise.  A reply carries the
`reply_markup` keyboard when one was passed (`Option.none` = no keyboard
argument). -/
inductive Effect where
  | reply (delivered : Bool) (text : String) (kb : Option (List String))
  | photo (delivered : Bool) (url : String)
  | adminMsg (kind : AdminKind) (delivered : Bool) (text : String)
  | leadRow (r : LeadRecord)
  | questionRow (r : QuestionRecord)
deriving DecidableEq

/-- The content of an incoming message: text, or any non-text content
(photo, sticker, ...), for which aiogram sets `message.text = None`. -/
inductive Content where
  | text (t : String)
  | other
deriving DecidableEq

/-- The universal back button label. -/
def backToken : String := "↩️ Назад"

/-- Model of `main_menu`: the three main-menu reply-keyboard labels. -/
def main_menu : List String :=
  ["🏠 Получить подборку", "❓ Задать вопрос", "📋 Чек-листы"]

/-- The checklist submenu labels offered by the `checklists` handler and
matched by `checklist_links`. -/
def checklistLabels : List String :=
  ["Как получить семейную ипотеку", "Как получить IT ипотеку", "Топ лучших ЖК"]

/-- Model of `safe_username`: the at-prefixed username when one is set, else
the empty string. -/
def safe_username (u : TgUser) : String :=
  match u.username with
  | some n => "@" ++ n
  | Option.none => ""

/-- Python `str.strip()`: drop leading and trailing whitespace characters
(defined on the character list so that it evaluates by reduction). -/
def pyStrip (s : String) : String :=
  String.mk (((s.data.dropWhile Char.isWhitespace).reverse.dropWhile
    Char.isWhitespace).reverse)

/-- The full name `bot.py` builds: first and last name joined by a space,
then stripped of surrounding whitespace. -/
def full_name (u : TgUser) : String :=
  pyStrip ((u.first_name.getD "") ++ " " ++ (u.last_name.getD ""))

/-- Python `data.get(key, "")`: the stored value or the empty string. -/
def getOrEmpty (o : Option String) : String := o.getD ""

/-- Python `f"{data.get(key)}"`: the stored value, or `"None"` when the key
is missing (an f-string renders `None` as `"None"`). -/
def getOrNone (o : Option String) : String :=
  match o with
  | some v => v
  | Option.none => "None"

/-- Model of `append_lead`: the row appended to the `leads` worksheet, built from the
timestamp `now_str()`, the sender and the collected data. -/
def append_lead (ts : String) (u : TgUser) (d : FormData) : LeadRecord :=
  { timestamp := ts
    user_id := u.id
    username := safe_username u
    full_name := full_name u
    district := getOrEmpty d.district
    rooms := getOrEmpty d.rooms
    deadline := getOrEmpty d.deadline
    purchase := getOrEmpty d.purchase
    budget := getOrEmpty d.budget }

/-- Model of `append_question`: the row appended to the `questions` worksheet. -/
def append_question (ts : String) (u : TgUser) (q : String) : QuestionRecord :=
  { timestamp := ts
    user_id := u.id
    username := safe_username u
    full_name := full_name u
    question := q }

/-- The admin summary built in `lead_finish`. -/
def lead_summary_text (u : TgUser) (d : FormData) : String :=
  "<b>Новый запрос на подборку</b>\n" ++
  "Район: " ++ getOrNone d.district ++ "\n" ++
  "Комнаты: " ++ getOrNone d.rooms ++ "\n" ++
  "Срок сдачи: " ++ getOrNone d.deadline ++ "\n" ++
  "Способ покупки: " ++ getOrNone d.purchase ++ "\n" ++
  "Бюджет: " ++ getOrNone d.budget ++ "\n" ++
  "От: " ++ safe_username u ++ " (ID: " ++ toString u.id ++ ")"

/-- The admin summary built in `receive_question`. -/
def question_summary_text (u : TgUser) (q : String) : String :=
  "<b>Новый вопрос</b>\n" ++ q ++ "\n\n" ++
  "От: " ++ safe_username u ++ " (ID: " ++ toString u.id ++ ")"

/-- The one-line error notice sent to the admin when the leads append fails. -/
def lead_error_text (env : Env) : String :=
  "⚠️ Ошибка записи в Google Sheets (leads): " ++ env.appendErr

/-- The one-line error notice sent to the admin when the questions append
fails. -/
def question_error_text (env : Env) : String :=
  "⚠️ Ошибка записи в Google Sheets (questions): " ++ env.appendErr

/-- Handler `cmd_start`: greeting with the main-menu keyboard, then (best-effort,
failure swallowed) the welcome photo when `WELCOME_IMAGE_URL` is truthy. -/
def cmd_start (cfg : Config) (env : Env) (s : Session) : Session × List Effect :=
  if env.replyFails then
    (s, [Effect.reply false
          "Привет! Я помогу подобрать квартиру.\n\nВыберите действие из меню ниже:"
          (some main_menu)])
  else
    (s, [Effect.reply true
          "Привет! Я помогу подобрать квартиру.\n\nВыберите действие из меню ниже:"
          (some main_menu)] ++
        (if cfg.WELCOME_IMAGE_URL ≠ "" then
          [Effect.photo (!env.photoFails) cfg.WELCOME_IMAGE_URL]
        else []))

/-- Handler `go_back`: finish the state (clears state and data), then the main-menu
reply.  The session is cleared even when the reply raises, since `finish`
already ran. -/
def go_back (env : Env) (_s : Session) : Session × List Effect :=
  (clearedSession,
   [Effect.reply (!env.replyFails) "Вы в главном меню." (some main_menu)])

/-- Handler `lead_start`: prompt for the district and enter `LeadForm.district`.
The state is set only after the prompt succeeds (the `await` of the failing
answer raises before `LeadForm.district.set()`). -/
def lead_start (env : Env) (s : Session) : Session × List Effect :=
  if env.replyFails then
    (s, [Effect.reply false "Выберите район:"
          (some ["Ленинградский", "Московский", "Центральный", "Не важно", backToken])])
  else
    ({ s with state := BotState.district },
     [Effect.reply true "Выберите район:"
       (some ["Ленинградский", "Московский", "Центральный", "Не важно", backToken])])

/-- Handler `lead_district`: store the text under `district`, prompt for rooms,
advance to `LeadForm.rooms` (the in-handler back check mirrors the source even
though the dispatcher routes the back token to `go_back` first). -/
def lead_district (env : Env) (t : String) (s : Session) : Session × List Effect :=
  if t = backToken then go_back env s
  else
    let d := { s.data with district := some t }
    if env.replyFails then
      ({ s with data := d },
       [Effect.reply false "Сколько комнат нужно?"
         (some ["1", "1+", "2", "2+", "3", "3+", backToken])])
    else
      ({ state := BotState.rooms, data := d },
       [Effect.reply true "Сколько комнат нужно?"
         (some ["1", "1+", "2", "2+", "3", "3+", backToken])])

/-- Handler `lead_rooms`: store `rooms`, prompt for the deadline, advance. -/
def lead_rooms (env : Env) (t : String) (s : Session) : Session × List Effect :=
  if t = backToken then go_back env s
  else
    let d := { s.data with rooms := some t }
    if env.replyFails then
      ({ s with data := d },
       [Effect.reply false "Какой срок сдачи интересует?"
         (some ["Сдан", "В этом году", "1-2 года", "3-4 года", "Неважно", backToken])])
    else
      ({ state := BotState.deadline, data := d },
       [Effect.reply true "Какой срок сдачи интересует?"
         (some ["Сдан", "В этом году", "1-2 года", "3-4 года", "Неважно", backToken])])

/-- Handler `lead_deadline`: store `deadline`, prompt for the purchase method,
advance. -/
def lead_deadline (env : Env) (t : String) (s : Session) : Session × List Effect :=
  if t = backToken then go_back env s
  else
    let d := { s.data with deadline := some t }
    if env.replyFails then
      ({ s with data := d },
       [Effect.reply false "Какой способ покупки?"
         (some ["Ипотека", "Льготные программы", "Рассрочка", "Наличные", backToken])])
    else
      ({ state := BotState.purchase, data := d },
       [Effect.reply true "Какой способ покупки?"
         (some ["Ипотека", "Льготные программы", "Рассрочка", "Наличные", backToken])])

/-- Handler `lead_purchase`: store `purchase`, prompt for the budget, advance. -/
def lead_purchase (env : Env) (t : String) (s : Session) : Session × List Effect :=
  if t = backToken then go_back env s
  else
    let d := { s.data with purchase := some t }
    if env.replyFails then
      ({ s with data := d },
       [Effect.reply false "Какой бюджет рассматриваете?"
         (some ["До 5 млн", "5 - 7 млн", "7 - 9 млн", "9 - 12 млн", "Более 12 млн", backToken])])
    else
      ({ state := BotState.budget, data := d },
       [Effect.reply true "Какой бюджет рассматриваете?"
         (some ["До 5 млн", "5 - 7 млн", "7 - 9 млн", "9 - 12 млн", "Более 12 млн", backToken])])

/-- Handler `lead_finish`: store `budget`, read the data, finish the state,
confirm to
the user, send the admin summary (skipped when `ADMIN_ID` is 0, failure
swallowed), then append the lead row; on append failure send the admin a
one-line error notice (its own failure swallowed by the bare `except`). -/
def lead_finish (cfg : Config) (env : Env) (ts : String) (u : TgUser)
    (t : String) (s : Session) : Session × List Effect :=
  if t = backToken then go_back env s
  else
    let d := { s.data with budget := some t }
    if env.replyFails then
      (clearedSession,
       [Effect.reply false "✅ Ваш запрос принят, уже обрабатываем его!" (some main_menu)])
    else
      (clearedSession,
       [Effect.reply true "✅ Ваш запрос принят, уже обрабатываем его!" (some main_menu)] ++
       (if cfg.ADMIN_ID ≠ 0 then
          [Effect.adminMsg AdminKind.leadSummary (!env.adminSendFails) (lead_summary_text u d)]
        else []) ++
       (if env.appendFails then
          (if cfg.ADMIN_ID ≠ 0 then
            [Effect.adminMsg AdminKind.leadError (!env.noticeFails) (lead_error_text env)]
          else [])
        else [Effect.leadRow (append_lead ts u d)]))

/-- Handler `ask_question`: prompt for the question and enter `QuestionForm.text`. -/
def ask_question (env : Env) (s : Session) : Session × List Effect :=
  if env.replyFails then
    (s, [Effect.reply false
          "Опишите ваш вопрос в одном сообщении. Я передам его специалисту."
          (some [backToken])])
  else
    ({ s with state := BotState.question },
     [Effect.reply true
       "Опишите ваш вопрос в одном сообщении. Я передам его специалисту."
       (some [backToken])])

/-- Handler `receive_question`: on back, finish and show the menu; otherwise strip the
text, `state.finish()`, acknowledge, send the admin summary (skipped when
`ADMIN_ID` is 0, failure swallowed), append the question row, and on append
failure send the admin a one-line notice (its own failure swallowed). -/
def receive_question (cfg : Config) (env : Env) (ts : String) (u : TgUser)
    (t : String) (_s : Session) : Session × List Effect :=
  if t = backToken then
    (clearedSession,
     [Effect.reply (!env.replyFails) "Вы в главном меню." (some main_menu)])
  else
    let q := pyStrip t
    if env.replyFails then
      (clearedSession,
       [Effect.reply false
         "✅ Спасибо! Ваш вопрос передан. Я свяжусь с вами в ближайшее время."
         (some main_menu)])
    else
      (clearedSession,
       [Effect.reply true
         "✅ Спасибо! Ваш вопрос передан. Я свяжусь с вами в ближайшее время."
         (some main_menu)] ++
       (if cfg.ADMIN_ID ≠ 0 then
          [Effect.adminMsg AdminKind.questionSummary (!env.adminSendFails)
            (question_summary_text u q)]
        else []) ++
       (if env.appendFails then
          (if cfg.ADMIN_ID ≠ 0 then
            [Effect.adminMsg AdminKind.questionError (!env.noticeFails)
              (question_error_text env)]
          else [])
        else [Effect.questionRow (append_question ts u q)]))

/-- Handler `checklists`: show the checklist submenu (no state change). -/
def checklists (env : Env) (s : Session) : Session × List Effect :=
  (s, [Effect.reply (!env.replyFails) "Выберите чек-лист:"
        (some (checklistLabels ++ [backToken]))])

/-- Handler `checklist_links`: look the label up in the link mapping; a truthy link is
sent back, an empty one yields the "not configured" notice with the main
menu. -/
def checklist_links (cfg : Config) (env : Env) (t : String) (s : Session) :
    Session × List Effect :=
  let link :=
    if t = "Как получить семейную ипотеку" then cfg.CHECKLIST_PRIMARY
    else if t = "Как получить IT ипотеку" then cfg.CHECKLIST_SECONDARY
    else if t = "Топ лучших ЖК" then cfg.CHECKLIST_THIRD
    else ""
  if link ≠ "" then
    (s, [Effect.reply (!env.replyFails) ("Вот ваш чек-лист: " ++ link) Option.none])
  else
    (s, [Effect.reply (!env.replyFails) "Чек-лист пока недоступен." (some main_menu)])

/-- Handler `fallback`: unknown content in the default state shows the menu again. -/
def fallback (env : Env) (s : Session) : Session × List Effect :=
  (s, [Effect.reply (!env.replyFails) "Выберите действие из меню 👇" (some main_menu)])

/-- The aiogram dispatcher: handlers are tried in registration order; the
first whose filters all pass handles the message, and a message matching no
handler is dropped without effect.  A handler registered without `state=`
matches only the default state; `go_back` is registered with `state="*"`.
All handlers except `fallback` (`ContentTypes.ANY`) require text content.
The `commands=["start"]` filter is modelled as the text `"/start"`. -/
def handle (cfg : Config) (env : Env) (ts : String) (u : TgUser)
    (s : Session) (m : Content) : Session × List Effect :=
  match m with
  | Content.other =>
      if s.state = BotState.none then fallback env s else (s, [])
  | Content.text t =>
      if s.state = BotState.none ∧ t = "/start" then cmd_start cfg env s
      else if s.state = BotState.none ∧ t = "🏠 Получить подборку" then lead_start env s
      else if t = backToken then go_back env s
      else if s.state = BotState.district then lead_district env t s
      else if s.state = BotState.rooms then lead_rooms env t s
      else if s.state = BotState.deadline then lead_deadline env t s
      else if s.state = BotState.purchase then lead_purchase env t s
      else if s.state = BotState.budget then lead_finish cfg env ts u t s
      else if s.state = BotState.none ∧ t = "❓ Задать вопрос" then ask_question env s
      else if s.state = BotState.question then receive_question cfg env ts u t s
      else if s.state = BotState.none ∧ t = "📋 Чек-листы" then checklists env s
      else if s.state = BotState.none ∧ t ∈ checklistLabels then checklist_links cfg env t s
      else if s.state = BotState.none then fallback env s
      else (s, [])

/-- The five lead-form states in flow order. -/
def leadSteps : List BotState :=
  [BotState.district, BotState.rooms, BotState.deadline, BotState.purchase, BotState.budget]

/-- Every in-flow (non-default) state: the five lead steps and the question
step. -/
def flowSteps : List BotState := leadSteps ++ [BotState.question]

/-- The needle `n` occurs as a contiguous substring of `h`. -/
def strContains (h n : String) : Prop := ∃ a b, h = a ++ n ++ b

/-- The handler that aiogram delegates to for each in-flow state (the
`state=...` registrations of `bot.py`), as a function of the current state. -/
def stepHandler (cfg : Config) (env : Env) (ts : String) (u : TgUser)
    (t : String) (s : Session) : Session × List Effect :=
  match s.state with
  | BotState.district => lead_district env t s
  | BotState.rooms => lead_rooms env t s
  | BotState.deadline => lead_deadline env t s
  | BotState.purchase => lead_purchase env t s
  | BotState.budget => lead_finish cfg env ts u t s
  | BotState.question => receive_question cfg env ts u t s
  | BotState.none => (s, [])

/-- The session produced when state `st` treats `t` as its answer: the four
non-final lead steps store `t` under their field and advance one step; the
budget and question steps complete and clear the session. -/
def storedAnswer (st : BotState) (t : String) (s : Session) (s2 : Session) : Prop :=
  match st with
  | BotState.district =>
      s2 = { state := BotState.rooms, data := { s.data with district := some t } }
  | BotState.rooms =>
      s2 = { state := BotState.deadline, data := { s.data with rooms := some t } }
  | BotState.deadline =>
      s2 = { state := BotState.purchase, data := { s.data with deadline := some t } }
  | BotState.purchase =>
      s2 = { state := BotState.budget, data := { s.data with purchase := some t } }
  | BotState.budget => s2 = clearedSession
  | BotState.question => s2 = clearedSession
  | BotState.none => True

/-- The collected-answers invariant of the data model: the stored keys are
exactly the lead steps strictly before the current step (and no keys at all
outside the lead flow and at its entry step). -/
def sessionInv (s : Session) : Prop :=
  match s.state with
  | BotState.none => s.data = {}
  | BotState.district => s.data = {}
  | BotState.rooms => ∃ a, s.data = { district := some a }
  | BotState.deadline => ∃ a b, s.data = { district := some a, rooms := some b }
  | BotState.purchase =>
      ∃ a b c, s.data = { district := some a, rooms := some b, deadline := some c }
  | BotState.budget =>
      ∃ a b c e, s.data =
        { district := some a, rooms := some b, deadline := some c, purchase := some e }
  | BotState.question => s.data = {}

/-- Recognizes the appended-question effect. -/
def isQuestionRow : Effect → Bool
  | Effect.questionRow _ => true
  | _ => false

/-- Recognizes the lead-summary admin message. -/
def isLeadSummary : Effect → Bool
  | Effect.adminMsg AdminKind.leadSummary _ _ => true
  | _ => false

/-- Recognizes the lead append-failure admin notice. -/
def isLeadError : Effect → Bool
  | Effect.adminMsg AdminKind.leadError _ _ => true
  | _ => false

/-- Recognizes the appended-lead effect. -/
def isLeadRow : Effect → Bool
  | Effect.leadRow _ => true
  | _ => false

/-- Fixture sender for the concrete witnesses below. -/
def wUser : TgUser :=
  { id := 42, username := some "alice", first_name := some "Иван",
    last_name := Option.none }

/-- Fixture configuration for the concrete witnesses below: operator
configured, only the second checklist link set. -/
def wCfg : Config :=
  { ADMIN_ID := 7, WELCOME_IMAGE_URL := "", CHECKLIST_PRIMARY := "",
    CHECKLIST_SECONDARY := "https://example.com/it", CHECKLIST_THIRD := "" }

/-- Fixture timestamp for the concrete witnesses below. -/
def wTs : String := "2025-01-01 10:00:00 EET"

/-- C3: in every state (the default state and every form step), the back
token clears the session to the default state with no stored answers and
replies with the main menu. -/
theorem back_token_resets (cfg : Config) (env : Env) (ts : String) (u : TgUser)
    (s : Session) (henv : env.replyFails = false) :
    handle cfg env ts u s (Content.text backToken) =
      (clearedSession, [Effect.reply true "Вы в главном меню." (some main_menu)]) := by
  simp [handle, go_back, backToken, henv]

/-- Witness for C3 at a concrete session mid-flow with accumulated answers. -/
theorem back_token_resets_witness :
    handle wCfg envOk wTs wUser
        ⟨BotState.deadline, { district := some "Центральный", rooms := some "2" }⟩
        (Content.text backToken) =
      (clearedSession, [Effect.reply true "Вы в главном меню." (some main_menu)]) :=
  back_token_resets _ _ _ _ _ (by decide)

/-- C9: both completion handlers clear the session before attempting any
outbound call, so after any completion attempt — under every combination of
injected outbound failures — the state is the default state and the collected
answers are empty. -/
theorem completion_clears_session_first (cfg : Config) (env : Env) (ts : String)
    (u : TgUser) (s : Session) (t : String)
    (hst : s.state = BotState.budget ∨ s.state = BotState.question) :
    (handle cfg env ts u s (Content.text t)).1 = clearedSession := by
  rcases s with ⟨st, d⟩
  rcases hst with h | h <;> subst h <;>
    (simp [handle, lead_finish, receive_question, go_back]; split_ifs <;> rfl)

/-- Witness for C9: a budget-step completion where every outbound call fails
still leaves the cleared session. -/
theorem completion_clears_session_first_witness :
    (handle wCfg
        { replyFails := true, photoFails := true, adminSendFails := true,
          appendFails := true, noticeFails := true, appendErr := "boom" }
        wTs wUser
        ⟨BotState.budget, { district := some "Центральный", rooms := some "2",
                            deadline := some "Сдан", purchase := some "Ипотека" }⟩
        (Content.text "5 - 7 млн")).1 = clearedSession :=
  completion_clears_session_first _ _ _ _ _ _ (Or.inl rfl)

/-- C10: a non-text message received in any lead step or in the question step
matches no handler, so the session is unchanged and no reply is sent. -/
theorem nontext_in_flow_ignored (cfg : Config) (env : Env) (ts : String)
    (u : TgUser) (s : Session) (hstep : s.state ∈ flowSteps) :
    handle cfg env ts u s Content.other = (s, []) := by
  rcases s with ⟨st, d⟩
  simp [flowSteps, leadSteps] at hstep
  rcases hstep with h | h | h | h | h | h <;> subst h <;> simp [handle]

/-- Witness for C10: a photo sent mid-flow leaves the session intact. -/
theorem nontext_in_flow_ignored_witness :
    handle wCfg envOk wTs wUser
        ⟨BotState.rooms, { district := some "Центральный" }⟩ Content.other =
      (⟨BotState.rooms, { district := some "Центральный" }⟩, []) :=
  nontext_in_flow_ignored _ _ _ _ _ (by decide)

/-- C8: for each of the three checklist labels, an empty configured link
yields only the not-configured notice, and a non-empty link yields the reply
carrying that link. -/
theorem checklist_empty_link_notice (cfg : Config) (env : Env) (ts : String)
    (u : TgUser) (s : Session)
    (hst : s.state = BotState.none) (henv : env.replyFails = false) :
    ((cfg.CHECKLIST_PRIMARY = "" →
        handle cfg env ts u s (Content.text "Как получить семейную ипотеку") =
          (s, [Effect.reply true "Чек-лист пока недоступен." (some main_menu)])) ∧
     (cfg.CHECKLIST_PRIMARY ≠ "" →
        handle cfg env ts u s (Content.text "Как получить семейную ипотеку") =
          (s, [Effect.reply true ("Вот ваш чек-лист: " ++ cfg.CHECKLIST_PRIMARY) Option.none]))) ∧
    ((cfg.CHECKLIST_SECONDARY = "" →
        handle cfg env ts u s (Content.text "Как получить IT ипотеку") =
          (s, [Effect.reply true "Чек-лист пока недоступен." (some main_menu)])) ∧
     (cfg.CHECKLIST_SECONDARY ≠ "" →
        handle cfg env ts u s (Content.text "Как получить IT ипотеку") =
          (s, [Effect.reply true ("Вот ваш чек-лист: " ++ cfg.CHECKLIST_SECONDARY) Option.none]))) ∧
    ((cfg.CHECKLIST_THIRD = "" →
        handle cfg env ts u s (Content.text "Топ лучших ЖК") =
          (s, [Effect.reply true "Чек-лист пока недоступен." (some main_menu)])) ∧
     (cfg.CHECKLIST_THIRD ≠ "" →
        handle cfg env ts u s (Content.text "Топ лучших ЖК") =
          (s, [Effect.reply true ("Вот ваш чек-лист: " ++ cfg.CHECKLIST_THIRD) Option.none]))) := by
  refine ⟨⟨?_, ?_⟩, ⟨?_, ?_⟩, ⟨?_, ?_⟩⟩ <;> intro h <;>
    simp [handle, hst, checklist_links, checklistLabels, backToken, henv, h]

/-- Witness for C8: with only the second link configured, the first label
gets the notice and the second label gets its link. -/
theorem checklist_empty_link_notice_witness :
    handle wCfg envOk wTs wUser ⟨BotState.none, {}⟩
        (Content.text "Как получить семейную ипотеку") =
      (⟨BotState.none, {}⟩,
       [Effect.reply true "Чек-лист пока недоступен." (some main_menu)]) ∧
    handle wCfg envOk wTs wUser ⟨BotState.none, {}⟩
        (Content.text "Как получить IT ипотеку") =
      (⟨BotState.none, {}⟩,
       [Effect.reply true ("Вот ваш чек-лист: " ++ "https://example.com/it") Option.none]) :=
  ⟨(checklist_empty_link_notice _ _ _ _ _ rfl (by decide)).1.1 rfl,
   (checklist_empty_link_notice _ _ _ _ _ rfl (by decide)).2.1.2 (by decide)⟩

/-- C2: dispatch precedence.  In every in-flow state the back token is routed
to `go_back`; any main-menu or checklist label other than the back token is
routed to the step handler of the current state, which stores it as the
answer of that step instead of running the menu action. -/
theorem router_precedence (cfg : Config) (env : Env) (ts : String) (u : TgUser)
    (s : Session) (t : String)
    (hstep : s.state ∈ flowSteps)
    (hmenu : t ∈ main_menu ∨ t ∈ checklistLabels) :
    handle cfg env ts u s (Content.text backToken) = go_back env s ∧
    handle cfg env ts u s (Content.text t) = stepHandler cfg env ts u t s ∧
    (env.replyFails = false →
      storedAnswer s.state t s (handle cfg env ts u s (Content.text t)).1) := by
  have ht : t ≠ backToken := by
    rcases hmenu with h | h <;> simp [main_menu, checklistLabels] at h <;>
      rcases h with h | h | h <;> subst h <;> decide
  rcases s with ⟨st, d⟩
  simp [flowSteps, leadSteps] at hstep
  rcases hstep with h | h | h | h | h | h <;> subst h <;>
    refine ⟨by simp [handle, go_back, backToken], by simp [handle, stepHandler, ht], ?_⟩ <;>
    intro henv <;>
    simp [handle, stepHandler, storedAnswer, ht, henv, lead_district, lead_rooms,
      lead_deadline, lead_purchase, lead_finish, receive_question]

/-- Witness for C2: a user in the rooms step who types the main-menu label
"📋 Чек-листы" has it stored as the rooms answer. -/
theorem router_precedence_witness :
    storedAnswer BotState.rooms "📋 Чек-листы"
      ⟨BotState.rooms, { district := some "Центральный" }⟩
      (handle wCfg envOk wTs wUser
        ⟨BotState.rooms, { district := some "Центральный" }⟩
        (Content.text "📋 Чек-листы")).1 :=
  (router_precedence _ _ _ _
      ⟨BotState.rooms, { district := some "Центральный" }⟩ "📋 Чек-листы"
      (by decide) (Or.inl (by decide))).2.2 rfl

/-- C4: each of the five lead steps stores any non-back text verbatim under
its field and advances exactly one step; the budget step completes, clears
the session, and appends the lead row carrying the stored budget text. -/
theorem lead_step_stores_verbatim (cfg : Config) (env : Env) (ts : String)
    (u : TgUser) (s : Session) (t : String)
    (hback : t ≠ backToken) (henv : env.replyFails = false)
    (happ : env.appendFails = false) :
    (s.state = BotState.district →
      handle cfg env ts u s (Content.text t) =
        ({ state := BotState.rooms, data := { s.data with district := some t } },
         [Effect.reply true "Сколько комнат нужно?"
           (some ["1", "1+", "2", "2+", "3", "3+", backToken])])) ∧
    (s.state = BotState.rooms →
      handle cfg env ts u s (Content.text t) =
        ({ state := BotState.deadline, data := { s.data with rooms := some t } },
         [Effect.reply true "Какой срок сдачи интересует?"
           (some ["Сдан", "В этом году", "1-2 года", "3-4 года", "Неважно", backToken])])) ∧
    (s.state = BotState.deadline →
      handle cfg env ts u s (Content.text t) =
        ({ state := BotState.purchase, data := { s.data with deadline := some t } },
         [Effect.reply true "Какой способ покупки?"
           (some ["Ипотека", "Льготные программы", "Рассрочка", "Наличные", backToken])])) ∧
    (s.state = BotState.purchase →
      handle cfg env ts u s (Content.text t) =
        ({ state := BotState.budget, data := { s.data with purchase := some t } },
         [Effect.reply true "Какой бюджет рассматриваете?"
           (some ["До 5 млн", "5 - 7 млн", "7 - 9 млн", "9 - 12 млн", "Более 12 млн", backToken])])) ∧
    (s.state = BotState.budget →
      (handle cfg env ts u s (Content.text t)).1 = clearedSession ∧
      Effect.leadRow (append_lead ts u { s.data with budget := some t }) ∈
        (handle cfg env ts u s (Content.text t)).2) := by
  refine ⟨?_, ?_, ?_, ?_, ?_⟩ <;> intro h <;>
    rcases s with ⟨st, d⟩ <;> subst h <;>
    simp [handle, hback, henv, happ, lead_district, lead_rooms, lead_deadline,
      lead_purchase, lead_finish]

/-- Witness for C4: the district step stores the non-option text "foo" and
advances to the rooms step. -/
theorem lead_step_stores_verbatim_witness :
    handle wCfg envOk wTs wUser ⟨BotState.district, {}⟩ (Content.text "foo") =
      ({ state := BotState.rooms, data := { district := some "foo" } },
       [Effect.reply true "Сколько комнат нужно?"
         (some ["1", "1+", "2", "2+", "3", "3+", backToken])]) :=
  (lead_step_stores_verbatim _ _ _ _ _ _ (by decide) (by decide) (by decide)).1 rfl

/-- C6: every message-handling operation preserves the collected-answers
invariant. -/
theorem session_invariant_preserved (cfg : Config) (env : Env) (ts : String)
    (u : TgUser) (s : Session) (m : Content)
    (henv : env.replyFails = false) (hinv : sessionInv s) :
    sessionInv (handle cfg env ts u s m).1 := by
  rcases s with ⟨st, d⟩
  cases m with
  | other =>
      cases st <;> (simp [handle]; exact hinv)
  | text t =>
      by_cases hb : t = backToken
      · subst hb
        cases st <;> simp [handle, go_back, backToken, sessionInv, clearedSession]
      · cases st with
        | none =>
            obtain rfl : d = {} := hinv
            simp only [handle]
            split_ifs <;>
              simp_all [sessionInv, cmd_start, lead_start, go_back, ask_question,
                checklists, checklist_links, fallback, clearedSession] <;>
              split_ifs <;> simp [sessionInv]
        | district =>
            obtain rfl : d = {} := hinv
            simp [handle, hb, lead_district, henv, sessionInv]
        | rooms =>
            obtain ⟨a, rfl⟩ := hinv
            simp [handle, hb, lead_rooms, henv, sessionInv]
        | deadline =>
            obtain ⟨a, b, rfl⟩ := hinv
            simp [handle, hb, lead_deadline, henv, sessionInv]
        | purchase =>
            obtain ⟨a, b, c, rfl⟩ := hinv
            simp [handle, hb, lead_purchase, henv, sessionInv]
        | budget =>
            obtain ⟨a, b, c, e, rfl⟩ := hinv
            simp [handle, hb, lead_finish, henv, sessionInv, clearedSession]
        | question =>
            obtain rfl : d = {} := hinv
            simp [handle, hb, receive_question, henv, sessionInv, clearedSession]

/-- Witness for C6: handling a rooms-step answer from an invariant session
yields an invariant session. -/
theorem session_invariant_preserved_witness :
    sessionInv (handle wCfg envOk wTs wUser
      ⟨BotState.rooms, { district := some "Центральный" }⟩ (Content.text "2")).1 :=
  session_invariant_preserved _ _ _ _
    ⟨BotState.rooms, { district := some "Центральный" }⟩ _
    (by decide) ⟨"Центральный", rfl⟩

/-- C7: a non-back text in the question step clears the session, acknowledges
the user, and produces exactly one question record holding the input with
surrounding whitespace stripped. -/
theorem question_capture_trims (cfg : Config) (env : Env) (ts : String)
    (u : TgUser) (s : Session) (t : String)
    (hst : s.state = BotState.question) (hback : t ≠ backToken)
    (henv : env.replyFails = false) (happ : env.appendFails = false) :
    (handle cfg env ts u s (Content.text t)).1 = clearedSession ∧
    Effect.reply true "✅ Спасибо! Ваш вопрос передан. Я свяжусь с вами в ближайшее время."
      (some main_menu) ∈ (handle cfg env ts u s (Content.text t)).2 ∧
    (handle cfg env ts u s (Content.text t)).2.filter isQuestionRow =
      [Effect.questionRow (append_question ts u (pyStrip t))] := by
  rcases s with ⟨st, d⟩
  obtain rfl : st = BotState.question := hst
  by_cases hA : cfg.ADMIN_ID = 0 <;>
    simp [handle, hback, receive_question, henv, happ, hA, isQuestionRow,
      List.filter_append]

/-- Witness for C7: the question text "  как купить?  " is recorded
trimmed. -/
theorem question_capture_trims_witness :
    (handle wCfg envOk wTs wUser ⟨BotState.question, {}⟩
        (Content.text "  как купить?  ")).1 = clearedSession ∧
    Effect.reply true "✅ Спасибо! Ваш вопрос передан. Я свяжусь с вами в ближайшее время."
      (some main_menu) ∈
      (handle wCfg envOk wTs wUser ⟨BotState.question, {}⟩
        (Content.text "  как купить?  ")).2 ∧
    (handle wCfg envOk wTs wUser ⟨BotState.question, {}⟩
        (Content.text "  как купить?  ")).2.filter isQuestionRow =
      [Effect.questionRow (append_question wTs wUser "как купить?")] := by
  have h := question_capture_trims wCfg envOk wTs wUser
    ⟨BotState.question, {}⟩ "  как купить?  " rfl (by decide) (by decide) (by decide)
  rw [show pyStrip "  как купить?  " = "как купить?" from by decide] at h
  exact h

/-- The admin summary interpolates every collected field, so each stored
value occurs in it as a substring. -/
theorem lead_summary_has_fields (u : TgUser) (d : FormData)
    (a b c e f : String)
    (h1 : d.district = some a) (h2 : d.rooms = some b) (h3 : d.deadline = some c)
    (h4 : d.purchase = some e) (h5 : d.budget = some f) :
    strContains (lead_summary_text u d) a ∧ strContains (lead_summary_text u d) b ∧
    strContains (lead_summary_text u d) c ∧ strContains (lead_summary_text u d) e ∧
    strContains (lead_summary_text u d) f := by
  refine ⟨⟨"<b>Новый запрос на подборку</b>\n" ++ "Район: ",
           "\n" ++ "Комнаты: " ++ b ++ "\n" ++ "Срок сдачи: " ++ c ++ "\n" ++
             "Способ покупки: " ++ e ++ "\n" ++ "Бюджет: " ++ f ++ "\n" ++
             "От: " ++ safe_username u ++ " (ID: " ++ toString u.id ++ ")", ?_⟩,
         ⟨"<b>Новый запрос на подборку</b>\n" ++ "Район: " ++ a ++ "\n" ++ "Комнаты: ",
           "\n" ++ "Срок сдачи: " ++ c ++ "\n" ++
             "Способ покупки: " ++ e ++ "\n" ++ "Бюджет: " ++ f ++ "\n" ++
             "От: " ++ safe_username u ++ " (ID: " ++ toString u.id ++ ")", ?_⟩,
         ⟨"<b>Новый запрос на подборку</b>\n" ++ "Район: " ++ a ++ "\n" ++ "Комнаты: " ++
             b ++ "\n" ++ "Срок сдачи: ",
           "\n" ++ "Способ покупки: " ++ e ++ "\n" ++ "Бюджет: " ++ f ++ "\n" ++
             "От: " ++ safe_username u ++ " (ID: " ++ toString u.id ++ ")", ?_⟩,
         ⟨"<b>Новый запрос на подборку</b>\n" ++ "Район: " ++ a ++ "\n" ++ "Комнаты: " ++
             b ++ "\n" ++ "Срок сдачи: " ++ c ++ "\n" ++ "Способ покупки: ",
           "\n" ++ "Бюджет: " ++ f ++ "\n" ++
             "От: " ++ safe_username u ++ " (ID: " ++ toString u.id ++ ")", ?_⟩,
         ⟨"<b>Новый запрос на подборку</b>\n" ++ "Район: " ++ a ++ "\n" ++ "Комнаты: " ++
             b ++ "\n" ++ "Срок сдачи: " ++ c ++ "\n" ++ "Способ покупки: " ++ e ++
             "\n" ++ "Бюджет: ",
           "\n" ++ "От: " ++ safe_username u ++ " (ID: " ++ toString u.id ++ ")", ?_⟩⟩ <;>
    simp [lead_summary_text, getOrNone, h1, h2, h3, h4, h5, String.append_assoc]

/-- C1: completing the budget step sends the user the confirmation, sends the
operator one summary interpolating all five collected values, and appends
exactly one lead row with the five fields, the timestamp and the user
identity. -/
theorem lead_flow_completion (cfg : Config) (env : Env) (ts : String)
    (u : TgUser) (s : Session) (t dd rr dl pm : String)
    (hst : s.state = BotState.budget)
    (h1 : s.data.district = some dd) (h2 : s.data.rooms = some rr)
    (h3 : s.data.deadline = some dl) (h4 : s.data.purchase = some pm)
    (hback : t ≠ backToken) (hadmin : cfg.ADMIN_ID ≠ 0)
    (e1 : env.replyFails = false) (e2 : env.adminSendFails = false)
    (e3 : env.appendFails = false) :
    handle cfg env ts u s (Content.text t) =
      (clearedSession,
       [Effect.reply true "✅ Ваш запрос принят, уже обрабатываем его!" (some main_menu),
        Effect.adminMsg AdminKind.leadSummary true
          (lead_summary_text u { s.data with budget := some t }),
        Effect.leadRow
          { timestamp := ts, user_id := u.id, username := safe_username u,
            full_name := full_name u, district := dd, rooms := rr,
            deadline := dl, purchase := pm, budget := t }]) ∧
    strContains (lead_summary_text u { s.data with budget := some t }) dd ∧
    strContains (lead_summary_text u { s.data with budget := some t }) rr ∧
    strContains (lead_summary_text u { s.data with budget := some t }) dl ∧
    strContains (lead_summary_text u { s.data with budget := some t }) pm ∧
    strContains (lead_summary_text u { s.data with budget := some t }) t := by
  constructor
  · rcases s with ⟨st, d⟩
    obtain rfl : st = BotState.budget := hst
    simp at h1 h2 h3 h4
    simp [handle, hback, lead_finish, e1, e2, e3, hadmin, append_lead, getOrEmpty,
      h1, h2, h3, h4]
  · exact lead_summary_has_fields u _ dd rr dl pm t h1 h2 h3 h4 rfl

/-- Witness for C1 with the spec test answers. -/
theorem lead_flow_completion_witness :
    handle wCfg envOk wTs wUser
        ⟨BotState.budget, { district := some "Central", rooms := some "2",
                            deadline := some "Ready", purchase := some "Mortgage" }⟩
        (Content.text "5-7M") =
      (clearedSession,
       [Effect.reply true "✅ Ваш запрос принят, уже обрабатываем его!" (some main_menu),
        Effect.adminMsg AdminKind.leadSummary true
          (lead_summary_text wUser
            { district := some "Central", rooms := some "2", deadline := some "Ready",
              purchase := some "Mortgage", budget := some "5-7M" }),
        Effect.leadRow
          { timestamp := wTs, user_id := 42, username := "@alice",
            full_name := "Иван", district := "Central", rooms := "2",
            deadline := "Ready", purchase := "Mortgage", budget := "5-7M" }]) ∧
    strContains (lead_summary_text wUser
        { district := some "Central", rooms := some "2", deadline := some "Ready",
          purchase := some "Mortgage", budget := some "5-7M" }) "Central" := by
  have h := lead_flow_completion wCfg envOk wTs wUser
    ⟨BotState.budget, { district := some "Central", rooms := some "2",
                        deadline := some "Ready", purchase := some "Mortgage" }⟩
    "5-7M" "Central" "2" "Ready" "Mortgage"
    rfl rfl rfl rfl rfl (by decide) (by decide) (by decide) (by decide) (by decide)
  refine ⟨?_, h.2.1⟩
  have h1 := h.1
  rw [show full_name wUser = "Иван" from by decide,
      show safe_username wUser = "@alice" from rfl,
      show wUser.id = 42 from rfl] at h1
  exact h1

/-- C5: when the lead append fails and the operator is configured, the user
still gets the confirmation, the operator gets the one summary and exactly
one error notice, no lead row is appended, and the outcome is the same
whether or not the error notice itself fails. -/
theorem lead_append_failure_handling (cfg : Config) (env : Env) (ts : String)
    (u : TgUser) (s : Session) (t : String)
    (hst : s.state = BotState.budget) (hback : t ≠ backToken)
    (e1 : env.replyFails = false) (e3 : env.appendFails = true)
    (hadmin : cfg.ADMIN_ID ≠ 0) :
    handle cfg env ts u s (Content.text t) =
      (clearedSession,
       [Effect.reply true "✅ Ваш запрос принят, уже обрабатываем его!" (some main_menu),
        Effect.adminMsg AdminKind.leadSummary (!env.adminSendFails)
          (lead_summary_text u { s.data with budget := some t }),
        Effect.adminMsg AdminKind.leadError (!env.noticeFails) (lead_error_text env)]) ∧
    (handle cfg env ts u s (Content.text t)).2.countP isLeadSummary = 1 ∧
    (handle cfg env ts u s (Content.text t)).2.countP isLeadError = 1 ∧
    (handle cfg env ts u s (Content.text t)).2.countP isLeadRow = 0 := by
  have h : handle cfg env ts u s (Content.text t) =
      (clearedSession,
       [Effect.reply true "✅ Ваш запрос принят, уже обрабатываем его!" (some main_menu),
        Effect.adminMsg AdminKind.leadSummary (!env.adminSendFails)
          (lead_summary_text u { s.data with budget := some t }),
        Effect.adminMsg AdminKind.leadError (!env.noticeFails) (lead_error_text env)]) := by
    rcases s with ⟨st, d⟩
    obtain rfl : st = BotState.budget := hst
    simp [handle, hback, lead_finish, e1, e3, hadmin]
  refine ⟨h, ?_, ?_, ?_⟩ <;>
    simp [h, isLeadSummary, isLeadError, isLeadRow, List.countP_cons]

/-- Witness for C5: an append failure with a failing error notice still
yields the confirmation, one summary and one notice. -/
theorem lead_append_failure_handling_witness :
    handle wCfg
        { replyFails := false, photoFails := false, adminSendFails := false,
          appendFails := true, noticeFails := true, appendErr := "quota" }
        wTs wUser
        ⟨BotState.budget, { district := some "Центральный", rooms := some "2",
                            deadline := some "Сдан", purchase := some "Ипотека" }⟩
        (Content.text "5 - 7 млн") =
      (clearedSession,
       [Effect.reply true "✅ Ваш запрос принят, уже обрабатываем его!" (some main_menu),
        Effect.adminMsg AdminKind.leadSummary true
          (lead_summary_text wUser
            { district := some "Центральный", rooms := some "2", deadline := some "Сдан",
              purchase := some "Ипотека", budget := some "5 - 7 млн" }),
        Effect.adminMsg AdminKind.leadError false
          ("⚠️ Ошибка записи в Google Sheets (leads): " ++ "quota")]) :=
  (lead_append_failure_handling wCfg
    { replyFails := false, photoFails := false, adminSendFails := false,
      appendFails := true, noticeFails := true, appendErr := "quota" }
    wTs wUser
    ⟨BotState.budget, { district := some "Центральный", rooms := some "2",
                        deadline := some "Сдан", purchase := some "Ипотека" }⟩
    "5 - 7 млн" rfl (by decide) (by decide) (by decide) (by decide)).1

end Bot
